import Mathlib

/-!
Verification of the annotation-matching and aggregation engine of beamspy
(`beamspy/annotation.py`) against its natural-language specification.

Real numbers (Python floats) are modelled as rationals, so every arithmetic
operation of the source (`+`, `-`, `*`, `/`) is exact.  Python dictionaries in
insertion order are modelled as lists, SQL tables as lists of records, and SQL
`UNION` results as finite sets.
-/

namespace Beamspy

/-- `calculate_mz_tolerance(mass, ppm)` from the source: the ppm tolerance
window around a mass. -/
def calculate_mz_tolerance (mass ppm : ℚ) : ℚ × ℚ :=
  (mass - mass * (1 / 1000000) * ppm, mass + mass * (1 / 1000000) * ppm)

/-- `calculate_ppm_error(mass, theo_mass)` from the source. -/
def calculate_ppm_error (mass theo_mass : ℚ) : ℚ :=
  (theo_mass - mass) / (theo_mass * (1 / 1000000))

/-! ### Library Normalizer (`_prep_lib`) -/

/-- A value of the label-keyed library mapping in case (a): either a bare mass
(`float` in the source, charge implicitly 1) or a mass together with a charge. -/
inductive LibVal where
  | m (mass : ℚ)
  | mc (mass : ℚ) (charge : ℤ)
deriving DecidableEq

/-- The mass stored under a library label. -/
def LibVal.mass : LibVal → ℚ
  | .m q => q
  | .mc q _ => q

/-- The charge stored under a library label; the bare-mass branch of
`_prep_lib` assigns charge 1. -/
def LibVal.charge : LibVal → ℤ
  | .m _ => 1
  | .mc _ c => c

/-- One comparison pair produced by `_prep_lib` in case (a): two labelled
masses with charges. -/
structure LibPairA where
  label_a : String
  mass_a : ℚ
  charge_a : ℤ
  label_b : String
  mass_b : ℚ
  charge_b : ℤ
deriving DecidableEq

/-- `itertools.combinations(lib, 2)`: all pairs of entries, first component
earlier in the list than the second, in lexicographic order of positions. -/
def combinations2 : List α → List (α × α)
  | [] => []
  | x :: xs => xs.map (fun y => (x, y)) ++ combinations2 xs

/-- Build the comparison pair of two labelled library values, as the body of
the `for pair in combs` loop of `_prep_lib` does (the bare-mass branch uses
charge 1, which `LibVal.charge` reproduces entry by entry). -/
def mkLibPairA (p : (String × LibVal) × (String × LibVal)) : LibPairA :=
  { label_a := p.1.1, mass_a := p.1.2.mass, charge_a := p.1.2.charge,
    label_b := p.2.1, mass_b := p.2.2.mass, charge_b := p.2.2.charge }

/-- The sort key of `_prep_lib` case (a): the signed difference of the two
masses of a pair, first minus second. -/
def libPairKey (p : LibPairA) : ℚ := p.mass_a - p.mass_b

/-- `_prep_lib` on a label-keyed library (case a): all pairs of entries,
sorted descending by `libPairKey`.  Python's `sorted(..., reverse=True)` is a
stable descending sort, which the stable `insertionSort` under the flipped
(total, transitive) comparison reproduces exactly. -/
def prep_lib_a (lib : List (String × LibVal)) : List LibPairA :=
  ((combinations2 lib).map mkLibPairA).insertionSort
    (fun x y => libPairKey y ≤ libPairKey x)

/-- One entry of a pre-paired mass-difference library (case b, isotopes):
two labels with reference abundances and a mass difference. -/
structure MassDiffEntry where
  label_a : String
  abundance_a : ℚ
  label_b : String
  abundance_b : ℚ
  mass_difference : ℚ
deriving DecidableEq

/-- `_prep_lib` on a pre-paired mass-difference library (case b): the entries
sorted descending by `mass_difference`. -/
def prep_lib_b (lib : List MassDiffEntry) : List MassDiffEntry :=
  lib.insertionSort (fun x y => y.mass_difference ≤ x.mass_difference)

/-! ### Pairwise matching predicate (`_check_tolerance`) -/

/-- The library pair argument of `_check_tolerance`: either a mass-difference
entry or a two-sided mass/charge pair. -/
inductive LibPairArg where
  | massDiff (e : MassDiffEntry)
  | massCharge (p : LibPairA)

/-- `_check_tolerance(mz_x, mz_y, lib_pair, ppm)` from the source: shift the
two ppm windows according to the library pair and return 1 on strict overlap,
0 otherwise. -/
def check_tolerance (mz_x mz_y : ℚ) (lib_pair : LibPairArg) (ppm : ℚ) : ℤ :=
  let ta := calculate_mz_tolerance mz_x ppm
  let tb := calculate_mz_tolerance mz_y ppm
  match lib_pair with
  | .massDiff e =>
    let min_tol_a := ta.1
    let max_tol_a := ta.2
    let min_tol_b := tb.1 - e.mass_difference
    let max_tol_b := tb.2 - e.mass_difference
    if min_tol_a < max_tol_b ∧ min_tol_b < max_tol_a then 1 else 0
  | .massCharge p =>
    let min_tol_a := (ta.1 - p.mass_a) * (p.charge_a : ℚ)
    let max_tol_a := (ta.2 - p.mass_a) * (p.charge_a : ℚ)
    let min_tol_b := (tb.1 - p.mass_b) * (p.charge_b : ℚ)
    let max_tol_b := (tb.2 - p.mass_b) * (p.charge_b : ℚ)
    if min_tol_a < max_tol_b ∧ min_tol_b < max_tol_a then 1 else 0

/-- The shifted tolerance intervals `((x1, x2), (y1, y2))` that
`_check_tolerance` compares, computed separately from the predicate. -/
def shifted_bounds (mz_x mz_y : ℚ) (lib_pair : LibPairArg) (ppm : ℚ) :
    (ℚ × ℚ) × (ℚ × ℚ) :=
  let ta := calculate_mz_tolerance mz_x ppm
  let tb := calculate_mz_tolerance mz_y ppm
  match lib_pair with
  | .massDiff e =>
    ((ta.1, ta.2), (tb.1 - e.mass_difference, tb.2 - e.mass_difference))
  | .massCharge p =>
    (((ta.1 - p.mass_a) * (p.charge_a : ℚ), (ta.2 - p.mass_a) * (p.charge_a : ℚ)),
     ((tb.1 - p.mass_b) * (p.charge_b : ℚ), (tb.2 - p.mass_b) * (p.charge_b : ℚ)))

/-! ### Reference Range Store (`DbMolecularFormulaeMemory.select_mf`,
`DbCompoundsMemory.select_compounds`)

The in-memory SQLite tables are modelled as lists of records; the range
queries `exact_mass >= min_tol and exact_mass <= max_tol` (optionally with
`lewis = 1 and senior = 1 and HC = 1 and NOPSC = 1`) are the corresponding
row filters.  Nullable INTEGER rule columns are `Option ℤ`; a NULL flag fails
an SQL `= 1` comparison, which `= some 1` reproduces. -/

/-- A row of the in-memory `MF` table. -/
structure MfRecord where
  exact_mass : ℚ
  C : ℤ
  H : ℤ
  N : ℤ
  O : ℤ
  P : ℤ
  S : ℤ
  CHNOPS : Option ℤ
  HC : Option ℤ
  NOPSC : Option ℤ
  lewis : Option ℤ
  senior : Option ℤ
  double_bond_equivalents : ℚ
deriving DecidableEq

/-- A row of the in-memory `COMPOUNDS` table. -/
structure CpdRecord where
  compound_id : String
  compound_name : String
  exact_mass : ℚ
  C : ℤ
  H : ℤ
  N : ℤ
  O : ℤ
  P : ℤ
  S : ℤ
  CHNOPS : Option ℤ
  molecular_formula : Option String
deriving DecidableEq

/-- `DbMolecularFormulaeMemory.select_mf(min_tol, max_tol, rules)`. -/
def select_mf (table : List MfRecord) (min_tol max_tol : ℚ) (rules : Bool) :
    List MfRecord :=
  table.filter (fun r =>
    decide (min_tol ≤ r.exact_mass) && decide (r.exact_mass ≤ max_tol) &&
      (if rules then
        decide (r.lewis = some 1) && decide (r.senior = some 1) &&
        decide (r.HC = some 1) && decide (r.NOPSC = some 1)
      else true))

/-- `DbCompoundsMemory.select_compounds(min_tol, max_tol)`. -/
def select_compounds (table : List CpdRecord) (min_tol max_tol : ℚ) :
    List CpdRecord :=
  table.filter (fun r =>
    decide (min_tol ≤ r.exact_mass) && decide (r.exact_mass ≤ max_tol))

/-! ### Isotope `atoms` estimation (`annotate_isotopes`) -/

/-- The `atoms` computation shared by both branches of `annotate_isotopes`:
`y` is the label-a abundance times peak b's intensity, `x` the label-b
abundance times peak a's intensity; `None` when either product is zero,
otherwise the ratio with the larger-abundance side on top. -/
def atoms_calc (abundance_a abundance_b intensity_a intensity_b : ℚ) : Option ℚ :=
  let y := abundance_a * intensity_b
  let x := abundance_b * intensity_a
  if x = 0 ∨ y = 0 then none
  else if abundance_a < abundance_b then some (x / y)
  else some (y / x)

/-- One row of the `isotopes` output table. -/
structure IsotopeRow where
  peak_id_a : String
  peak_id_b : String
  label_a : String
  label_b : String
  atoms : Option ℚ
  ppm_error : ℚ
deriving DecidableEq

/-- Python's `float(x)` applied to the `atoms` value in the graph branch of
`annotate_isotopes`: raises `TypeError` when `atoms` is `None`. -/
def float_of_atoms : Option ℚ → Except String ℚ
  | none => Except.error "TypeError: float() argument is None"
  | some q => Except.ok q

/-- The graph-branch row construction of `annotate_isotopes` (source line
wrapping the insert values in `float(atoms)`): fails when `atoms` is `None`. -/
def isotope_row_graph (pa pb la lb : String)
    (abundance_a abundance_b intensity_a intensity_b ppm_err : ℚ) :
    Except String IsotopeRow :=
  match float_of_atoms (atoms_calc abundance_a abundance_b intensity_a intensity_b) with
  | Except.error e => Except.error e
  | Except.ok q => Except.ok ⟨pa, pb, la, lb, some q, ppm_err⟩

/-- The flat-list-branch row construction of `annotate_isotopes`: the raw
`atoms` value (possibly `None`) is passed straight to the insert. -/
def isotope_row_flat (pa pb la lb : String)
    (abundance_a abundance_b intensity_a intensity_b ppm_err : ℚ) : IsotopeRow :=
  ⟨pa, pb, la, lb, atoms_calc abundance_a abundance_b intensity_a intensity_b, ppm_err⟩

/-! ### Reference-match persistence (`annotate_molecular_formulae`,
`annotate_compounds`)

Both orchestrators persist with a plain SQL `INSERT` into a table whose
primary key is `(id, mz, molecular_formula, adduct)` respectively
`(id, compound_id, adduct)`.  SQLite raises an `IntegrityError` (UNIQUE
constraint violation) on a plain `INSERT` of a duplicate primary key; only
`INSERT OR REPLACE` / `INSERT OR IGNORE` behave differently, and the source
uses those only for the relationship tables. -/

/-- A row of the `molecular_formulae` output table (key-relevant columns). -/
structure MfMatchRow where
  id : String
  mz : ℚ
  exact_mass : ℚ
  ppm_error : ℚ
  adduct : String
  molecular_formula : String
deriving DecidableEq

/-- A row of a `compounds_<db_name>` output table (key-relevant columns). -/
structure CpdMatchRow where
  id : String
  mz : ℚ
  exact_mass : ℚ
  ppm_error : ℚ
  adduct : String
  molecular_formula : String
  compound_id : String
  compound_name : String
deriving DecidableEq

/-- The primary key of `molecular_formulae`: `(id, mz, molecular_formula,
adduct)`. -/
def mf_key (r : MfMatchRow) : String × ℚ × String × String :=
  (r.id, r.mz, r.molecular_formula, r.adduct)

/-- The primary key of `compounds_<db_name>`: `(id, compound_id, adduct)`. -/
def cpd_key (r : CpdMatchRow) : String × String × String :=
  (r.id, r.compound_id, r.adduct)

/-- Plain SQLite `INSERT` into a table with primary-key function `key`:
appends the row, or fails with a UNIQUE-constraint error when a row with the
same key is already present. -/
def sqlite_insert {α κ : Type} [DecidableEq κ] (key : α → κ) (table : List α)
    (row : α) : Except String (List α) :=
  if table.any (fun x => decide (key x = key row)) then
    Except.error "IntegrityError: UNIQUE constraint failed"
  else
    Except.ok (table ++ [row])

/-- The persistence loop of `annotate_compounds`: plain inserts, aborting at
the first duplicate key. -/
def persist_compounds (rows : List CpdMatchRow) : Except String (List CpdMatchRow) :=
  rows.foldlM (fun table row => sqlite_insert cpd_key table row) []

/-- The persistence loop of `annotate_molecular_formulae`: plain inserts,
aborting at the first duplicate key. -/
def persist_mf (rows : List MfMatchRow) : Except String (List MfMatchRow) :=
  rows.foldlM (fun table row => sqlite_insert mf_key table row) []

/-- Modelled from the spec: the insert-or-ignore, first-write-wins persistence
the specification describes for reference matches (`duplicates are
rejected/ignored (insert-or-ignore semantics), not overwritten`).  Used only
to exhibit the divergence from the source's plain `INSERT`. -/
def persist_compounds_ignore_spec (rows : List CpdMatchRow) : List CpdMatchRow :=
  rows.foldl
    (fun table row =>
      if table.any (fun x => decide (cpd_key x = cpd_key row)) then table
      else table ++ [row])
    []

/-- First row of the claim C6 duplicate-key scenario. -/
def c6_row_1 : CpdMatchRow := ⟨"P1", 100, 150, 0, "M+H", "C6H12O6", "HMDB01", "glucose"⟩

/-- Second row of the claim C6 duplicate-key scenario: same composite key
`(id, compound_id, adduct)` as `c6_row_1`, different payload. -/
def c6_row_2 : CpdMatchRow := ⟨"P1", 100, 151, 5, "M+H", "C6H12O6", "HMDB01", "glucose"⟩

/-! ### Summary Aggregator (`summary`): failure decision and the
peak-relationship union

`summary` drops and recreates `peak_labels` from the relationship tables that
exist, builds the reference-match column list from `molecular_formulae` and
the tables whose name contains "compound", and raises
`ValueError("No annotation results available to create summary from")` when
`peak_labels` has no columns and the reference-match column list is empty.
The decision depends only on which table names exist, which the model takes
as a list of names. -/

/-- The `tables_amo` list of `summary` (source line 935). -/
def tables_amo : List String :=
  ["adduct_pairs", "multiple_charged_ions", "oligomers", "isotopes"]

/-- Python's `"needle" in hay` substring test. -/
def contains_sub (needle hay : String) : Bool :=
  hay.data.tails.any (fun t => List.isPrefixOf needle.data t)

/-- `flag_amo` of `summary`: some relationship table other than artifacts
exists. -/
def flag_amo (tables : List String) : Bool :=
  tables_amo.any (fun t => decide (t ∈ tables))

/-- `flag_isotopes` of `summary`. -/
def flag_isotopes (tables : List String) : Bool := decide ("isotopes" ∈ tables)

/-- `flag_mf` of `summary`. -/
def flag_mf (tables : List String) : Bool := decide ("molecular_formulae" ∈ tables)

/-- `cpd_tables` of `summary`: the tables whose name contains "compound". -/
def cpd_tables (tables : List String) : List String :=
  tables.filter (fun t => contains_sub "compound" t)

/-- Whether `query_groupings` is nonempty: some `tables_amo` table exists and
the external `groups` table exists (source lines 941 and 983-985). -/
def groupings_nonempty (tables : List String) : Bool :=
  flag_amo tables && decide ("groups" ∈ tables)

/-- Output columns of `query_groupings` (source line 973). -/
def columns_groupings : List String :=
  ["peak_id", "group_id", "degree_cor", "sub_group_id", "degree", "n_nodes", "n_edges"]

/-- Extra columns contributed by the relationship union (source line 1006). -/
def columns_amo : List String := ["label", "charge", "oligomer"]

/-- Extra columns contributed by the isotope view (source line 1010). -/
def columns_isotopes : List String :=
  ["isotope_labels_a", "isotope_ids", "isotope_labels_b", "atoms"]

/-- The columns of the `peak_labels` table that `summary` creates, `[]` when
no branch creates it (then `PRAGMA table_info` on the missing table yields no
rows). -/
def columns_peak_labels (tables : List String) : List String :=
  if flag_amo tables && flag_isotopes tables then
    if groupings_nonempty tables then
      columns_groupings ++ columns_amo ++ columns_isotopes
    else
      "peak_id" :: (columns_amo ++ columns_isotopes)
  else if flag_isotopes tables && !flag_amo tables then
    if groupings_nonempty tables then
      columns_groupings ++ columns_isotopes
    else
      "peak_id_a" :: columns_isotopes
  else if !flag_isotopes tables && flag_amo tables then
    if groupings_nonempty tables then
      columns_groupings ++ columns_amo
    else
      "peak_id" :: columns_amo
  else []

/-- The reference-match columns `mf_cpc_columns` of `summary` (source lines
1071, 1115-1116, 1124-1125, 1134, 1143). -/
def mf_cpc_columns (tables : List String) : List String :=
  let columns := ["exact_mass", "ppm_error", "adduct", "C", "H", "N", "O", "P", "S",
    "molecular_formula"]
  if flag_mf tables && !(cpd_tables tables).isEmpty then
    columns ++ ["compound_name", "compound_id"]
  else if !flag_mf tables && !(cpd_tables tables).isEmpty then
    columns ++ ["compound_name", "compound_id"]
  else if flag_mf tables && (cpd_tables tables).isEmpty then
    columns
  else []

/-- The failure decision of `summary` (source lines 1146-1150): raise exactly
when `peak_labels` has no columns and no reference-match columns exist. -/
def summary_raises (tables : List String) : Bool :=
  (columns_peak_labels tables).isEmpty && (mf_cpc_columns tables).isEmpty

/-- Modelled from the spec: the relationship tables named in the external
interface section (`adduct_pairs`, `isotopes`, `multiple_charged_ions`,
`oligomers`, `artifacts`). -/
def relationship_tables_spec : List String :=
  ["adduct_pairs", "isotopes", "multiple_charged_ions", "oligomers", "artifacts"]

/-- Modelled from the spec: the reference-match tables named in the external
interface section (`molecular_formulae`, one `compounds_<source>` table per
source, `drug_products`). -/
def is_reference_match_table_spec (t : String) : Bool :=
  t == "molecular_formulae" || contains_sub "compounds_" t || t == "drug_products"

/-- Modelled from the spec: the claimed failure condition — the Summary
Aggregator fails exactly when neither any relationship table nor any
reference-match table exists. -/
def summary_fails_claim (tables : List String) : Bool :=
  !(relationship_tables_spec.any (fun t => decide (t ∈ tables))) &&
  !(tables.any is_reference_match_table_spec)

/-! ### Summary Aggregator: sources of the peak-relationship union (claim C10)

The row-level content of the relationship views of `summary` as finite sets
(SQL `UNION` deduplicates).  `query_amo` unions the both-direction expansions
of `adduct_pairs`, `multiple_charged_ions` and `oligomers` (source lines
990-1007); the isotope view symmetrizes `isotopes` (source lines 1011-1019);
`tables_to_union` collects the edges fed into the sub-group graph (source
lines 936-950).  An absent table contributes nothing. -/

/-- A row of the `adduct_pairs` table. -/
structure AdductRow where
  peak_id_a : String
  peak_id_b : String
  label_a : String
  label_b : String
  ppm_error : ℚ
deriving DecidableEq

/-- A row of the `multiple_charged_ions` table. -/
structure MultiRow where
  peak_id_a : String
  peak_id_b : String
  label_a : String
  label_b : String
  charge_a : ℤ
  charge_b : ℤ
  ppm_error : ℚ
deriving DecidableEq

/-- A row of the `oligomers` table. -/
structure OligoRow where
  peak_id_a : String
  peak_id_b : String
  mz_a : ℚ
  mz_b : ℚ
  label_a : String
  label_b : String
  mz_ratio : ℚ
  ppm_error : ℚ
deriving DecidableEq

/-- A row of the `artifacts` table. -/
structure ArtifactRow where
  peak_id_a : String
  peak_id_b : String
  mz_diff : ℚ
  ppm_error : ℚ
deriving DecidableEq

/-- The destination store of one run: each relationship table either absent
(`none`) or present with its rows. -/
structure AnnotationDb where
  adduct_pairs : Option (List AdductRow)
  multiple_charged_ions : Option (List MultiRow)
  oligomers : Option (List OligoRow)
  isotopes : Option (List IsotopeRow)
  artifacts : Option (List ArtifactRow)

/-- A row of the relationship union: `(peak_id, label, charge, oligomer)`. -/
structure LabelRow where
  peak_id : String
  label : String
  charge : ℤ
  oligomer : ℚ
deriving DecidableEq

/-- SQLite's `round()`: half away from zero. -/
def sqlite_round (q : ℚ) : ℚ :=
  if 0 ≤ q then ((⌊q + 1 / 2⌋ : ℤ) : ℚ) else ((⌈q - 1 / 2⌉ : ℤ) : ℚ)

/-- The `adduct_pairs` sub-query of the relationship union: both directions,
charge 1, oligomer 1. -/
def sub_query_adduct_pairs (rows : List AdductRow) : Finset LabelRow :=
  (rows.map fun r => LabelRow.mk r.peak_id_a r.label_a 1 1).toFinset ∪
  (rows.map fun r => LabelRow.mk r.peak_id_b r.label_b 1 1).toFinset

/-- The `multiple_charged_ions` sub-query: both directions with the stored
charges, oligomer 1. -/
def sub_query_multiple (rows : List MultiRow) : Finset LabelRow :=
  (rows.map fun r => LabelRow.mk r.peak_id_a r.label_a r.charge_a 1).toFinset ∪
  (rows.map fun r => LabelRow.mk r.peak_id_b r.label_b r.charge_b 1).toFinset

/-- The `oligomers` sub-query: the a side with oligomer 1, the b side with
`round(mz_ratio)`. -/
def sub_query_oligomers (rows : List OligoRow) : Finset LabelRow :=
  (rows.map fun r => LabelRow.mk r.peak_id_a r.label_a 1 1).toFinset ∪
  (rows.map fun r => LabelRow.mk r.peak_id_b r.label_b 1 (sqlite_round r.mz_ratio)).toFinset

/-- `query_amo` of `summary`: the union of the three label-bearing
relationship sub-queries over whichever tables exist. -/
def query_amo (db : AnnotationDb) : Finset LabelRow :=
  (match db.adduct_pairs with
   | none => ∅
   | some rows => sub_query_adduct_pairs rows) ∪
  (match db.multiple_charged_ions with
   | none => ∅
   | some rows => sub_query_multiple rows) ∪
  (match db.oligomers with
   | none => ∅
   | some rows => sub_query_oligomers rows)

/-- One direction-expanded isotope row of the isotope view. -/
structure IsoSymRow where
  peak_id_a : String
  label_a : String
  peak_id_b : String
  label_b : String
  atoms : Option ℚ
  ppm_error : ℚ
deriving DecidableEq

/-- The symmetrized isotope rows underlying the isotope view of `summary`. -/
def isotope_sym_rows (db : AnnotationDb) : Finset IsoSymRow :=
  match db.isotopes with
  | none => ∅
  | some rows =>
    (rows.map fun r =>
      IsoSymRow.mk r.peak_id_a r.label_a r.peak_id_b r.label_b r.atoms r.ppm_error).toFinset ∪
    (rows.map fun r =>
      IsoSymRow.mk r.peak_id_b r.label_b r.peak_id_a r.label_a r.atoms r.ppm_error).toFinset

/-- The `(peak_id_a, peak_id_b)` edge set of the `tables_to_union` query that
feeds the sub-group graph of `summary`. -/
def union_edges (db : AnnotationDb) : Finset (String × String) :=
  (match db.adduct_pairs with
   | none => ∅
   | some rows => (rows.map fun r => (r.peak_id_a, r.peak_id_b)).toFinset) ∪
  (match db.multiple_charged_ions with
   | none => ∅
   | some rows => (rows.map fun r => (r.peak_id_a, r.peak_id_b)).toFinset) ∪
  (match db.oligomers with
   | none => ∅
   | some rows => (rows.map fun r => (r.peak_id_a, r.peak_id_b)).toFinset) ∪
  (match db.isotopes with
   | none => ∅
   | some rows => (rows.map fun r => (r.peak_id_a, r.peak_id_b)).toFinset)

/-! ### Oligomer matcher (`annotate_oligomers`, flat-list branch)

The flat-list branch iterates `for adduct / for i in range(n) / for d in
range(1, maximum) / for j in range(i+1, n)`.  Inside the `j` loop it computes
the ppm window of the scaled candidate `mz_i + (mz_i - adduct_mass) * d` and
of the target `mz_j`; it breaks out of the `j` loop when the target window
lies entirely above the candidate window; otherwise it shifts all four bounds
down by the adduct mass and accepts on strict overlap.  Peaks are identified
by their list index, adducts by their library index; accepted rows carry the
raw ratio and ppm error (the source additionally rounds the stored copies for
display, identically in both loop variants, and derives a display label from
the adduct string — neither affects which iterations are accepted).  The
naive variant differs from the source loop only by not breaking. -/

/-- The early-exit condition of the inner `j` loop (source line 479): both
bounds of the target window exceed the upper bound of the scaled candidate
window. -/
def oligo_break (mz_x mz_y m ppm : ℚ) (d : ℕ) : Bool :=
  let ta := calculate_mz_tolerance (mz_x + (mz_x - m) * (d : ℚ)) ppm
  let tb := calculate_mz_tolerance mz_y ppm
  decide (tb.1 > ta.2) && decide (tb.2 > ta.2)

/-- The acceptance test of one oligomer step (source lines 483-489): strict
overlap of the two windows after shifting every bound down by the adduct
mass. -/
def oligo_match (mz_x mz_y m ppm : ℚ) (d : ℕ) : Bool :=
  let ta := calculate_mz_tolerance (mz_x + (mz_x - m) * (d : ℚ)) ppm
  let tb := calculate_mz_tolerance mz_y ppm
  decide (ta.1 - m < tb.2 - m) && decide (tb.1 - m < ta.2 - m)

/-- An accepted oligomer match: peak indices, their m/z values, the adduct
index, the multiplicity `d` of the accepting iteration, and the stored ratio
and ppm error. -/
structure OligoHit where
  peak_id_a : ℕ
  peak_id_b : ℕ
  mz_a : ℚ
  mz_b : ℚ
  adduct_idx : ℕ
  d : ℕ
  mz_ratio : ℚ
  ppm_error : ℚ
deriving DecidableEq

/-- The accepted-row construction of `annotate_oligomers` (source lines
491-495). -/
def mk_oligo_hit (i j : ℕ) (mz_x mz_y m : ℚ) (ai d : ℕ) : OligoHit :=
  ⟨i, j, mz_x, mz_y, ai, d, (mz_y - m) / (mz_x - m),
    calculate_ppm_error ((mz_x - m) + (mz_x - m) * (d : ℚ)) (mz_y - m)⟩

/-- The `for j in range(i+1, n)` loop with the early break, over the
`(index, mz)` pairs still to scan. -/
def j_scan_opt (mz_x m ppm : ℚ) (ai i d : ℕ) : List (ℕ × ℚ) → List OligoHit
  | [] => []
  | (j, mz_y) :: rest =>
    if oligo_break mz_x mz_y m ppm d then []
    else
      (if oligo_match mz_x mz_y m ppm d then [mk_oligo_hit i j mz_x mz_y m ai d] else [])
        ++ j_scan_opt mz_x m ppm ai i d rest

/-- The same scan without the early break. -/
def j_scan_naive (mz_x m ppm : ℚ) (ai i d : ℕ) (js : List (ℕ × ℚ)) : List OligoHit :=
  js.filterMap (fun jp =>
    if oligo_match mz_x jp.2 m ppm d then some (mk_oligo_hit i jp.1 mz_x jp.2 m ai d)
    else none)

/-- The flat-list branch of `annotate_oligomers`: adducts outermost, then peak
index `i`, then multiplicity `d` over Python's `range(1, maximum)` (which has
`maximum - 1` elements), then the inner `j` scan with the early break. -/
def annotate_oligomers_opt (mzs : List ℚ) (ppm : ℚ) (lib : List (String × ℚ))
    (maximum : ℕ) : List OligoHit :=
  (lib.enum).flatMap fun ap =>
    (mzs.enum).flatMap fun ip =>
      (List.range' 1 (maximum - 1)).flatMap fun d =>
        j_scan_opt ip.2 ap.2.2 ppm ap.1 ip.1 d
          (List.enumFrom (ip.1 + 1) (mzs.drop (ip.1 + 1)))

/-- The naive variant of the flat-list branch: identical loops and tests,
with every `j` tested (no early break). -/
def annotate_oligomers_naive (mzs : List ℚ) (ppm : ℚ) (lib : List (String × ℚ))
    (maximum : ℕ) : List OligoHit :=
  (lib.enum).flatMap fun ap =>
    (mzs.enum).flatMap fun ip =>
      (List.range' 1 (maximum - 1)).flatMap fun d =>
        j_scan_naive ip.2 ap.2.2 ppm ap.1 ip.1 d
          (List.enumFrom (ip.1 + 1) (mzs.drop (ip.1 + 1)))

/-- Modelled from the spec: the claim's reading of the multiplicity range —
every `d` from 1 up to AND INCLUDING the configured maximum is tested
(`maximum` elements instead of the source's `maximum - 1`); otherwise
identical to the naive loop. -/
def annotate_oligomers_incl_spec (mzs : List ℚ) (ppm : ℚ)
    (lib : List (String × ℚ)) (maximum : ℕ) : List OligoHit :=
  (lib.enum).flatMap fun ap =>
    (mzs.enum).flatMap fun ip =>
      (List.range' 1 maximum).flatMap fun d =>
        j_scan_naive ip.2 ap.2.2 ppm ap.1 ip.1 d
          (List.enumFrom (ip.1 + 1) (mzs.drop (ip.1 + 1)))

/-- The condition for `h` to be an accepted match of the naive flat-list scan:
valid indices with `i < j`, a multiplicity in Python's `range(1, maximum)`,
a passing tolerance test, and the documented row contents. -/
def OligoHitSpec (mzs : List ℚ) (ppm : ℚ) (lib : List (String × ℚ))
    (maximum : ℕ) (h : OligoHit) : Prop :=
  ∃ entry, lib[h.adduct_idx]? = some entry ∧
    mzs[h.peak_id_a]? = some h.mz_a ∧
    mzs[h.peak_id_b]? = some h.mz_b ∧
    h.peak_id_a < h.peak_id_b ∧
    1 ≤ h.d ∧ h.d < maximum ∧
    oligo_match h.mz_a h.mz_b entry.2 ppm h.d = true ∧
    h = mk_oligo_hit h.peak_id_a h.peak_id_b h.mz_a h.mz_b entry.2 h.adduct_idx h.d

/-! ### Artifact matcher (`_annotate_artifacts`)

The source computes `n = peaklist.iloc[:, 1]` — the whole m/z column, not its
length — and then calls `range(n)`, which raises `TypeError` for every input
(a pandas Series is not an integer); additionally the caller
`annotate_artifacts` indexes the yielded plain tuples with string keys.  So
the shipped code cannot flag anything.  The generator's own filter makes the
intent plain. -/

/-- Modelled from the spec: the intended `_annotate_artifacts` generator (the
spec's `flag any peak pair whose absolute m/z difference is below a fixed
threshold` and the source's own loop body), repairing only `n =
len(peaklist)`: scan all index pairs `i < j` and yield
`(i, j, mz_diff, ppm_error)` for those with `abs(mz_i - mz_j) < diff`. -/
def annotate_artifacts_gen (mzs : List ℚ) (diff : ℚ) : List (ℕ × ℕ × ℚ × ℚ) :=
  (mzs.enum).flatMap fun ip =>
    (List.enumFrom (ip.1 + 1) (mzs.drop (ip.1 + 1))).filterMap fun jp =>
      if |ip.2 - jp.2| < diff then
        some (ip.1, jp.1, ip.2 - jp.2, calculate_ppm_error ip.2 jp.2)
      else none

/-- Destination store with one adduct pair and no artifacts table. -/
def c10_db_base : AnnotationDb :=
  ⟨some [⟨"P1", "P2", "A", "B", 0⟩], none, none, none, none⟩

/-- The same store with an artifacts table holding one row. -/
def c10_db_artifacts : AnnotationDb :=
  ⟨some [⟨"P1", "P2", "A", "B", 0⟩], none, none, none, some [⟨"P3", "P4", 1 / 100, 3⟩]⟩

/-! ### Theorems for claims C1 and C2 -/

/-- Claim C1, counterexample: `_prep_lib` sorts case (a) pairs by the SIGNED
difference `mass_a - mass_b` of each pair, not by the absolute difference.  On
the library `A ↦ 1, B ↦ 5, C ↦ 2` the returned pair list is
`[(B,C), (A,C), (A,B)]` with absolute separations `3, 1, 4`, which is not
descending in absolute mass difference. -/
theorem c1_counterexample :
    ¬ (prep_lib_a [("A", LibVal.m 1), ("B", LibVal.m 5), ("C", LibVal.m 2)]).Pairwise
      (fun x y => |y.mass_a - y.mass_b| ≤ |x.mass_a - x.mass_b|) := by
  norm_num [prep_lib_a, combinations2, mkLibPairA, libPairKey, LibVal.mass, LibVal.charge,
    List.insertionSort, List.orderedInsert, List.pairwise_cons]

/-- Claim C1, amended: case (a) returns all unique unordered pairs of library
entries sorted by descending SIGNED mass difference (first-listed entry's mass
minus second-listed entry's mass); case (b) returns the pre-paired entries
sorted by descending `mass_difference`. -/
theorem c1_amended_theorem (lib : List (String × LibVal)) (libB : List MassDiffEntry) :
    ((prep_lib_a lib).Pairwise (fun x y => libPairKey y ≤ libPairKey x)
      ∧ (prep_lib_a lib).Perm ((combinations2 lib).map mkLibPairA))
    ∧ ((prep_lib_b libB).Pairwise (fun x y => y.mass_difference ≤ x.mass_difference)
      ∧ (prep_lib_b libB).Perm libB) := by
  refine ⟨⟨?_, List.perm_insertionSort _ _⟩, ⟨?_, List.perm_insertionSort _ _⟩⟩
  · haveI : IsTotal LibPairA (fun x y => libPairKey y ≤ libPairKey x) :=
      ⟨fun a b => le_total (libPairKey b) (libPairKey a)⟩
    haveI : IsTrans LibPairA (fun x y => libPairKey y ≤ libPairKey x) :=
      ⟨fun a b c hab hbc => le_trans hbc hab⟩
    exact List.sorted_insertionSort _ _
  · haveI : IsTotal MassDiffEntry (fun x y => y.mass_difference ≤ x.mass_difference) :=
      ⟨fun a b => le_total b.mass_difference a.mass_difference⟩
    haveI : IsTrans MassDiffEntry (fun x y => y.mass_difference ≤ x.mass_difference) :=
      ⟨fun a b c hab hbc => le_trans hbc hab⟩
    exact List.sorted_insertionSort _ _

/-- Claim C2: `_check_tolerance` declares a match (returns 1) exactly when the
shifted tolerance intervals `[x1,x2]`, `[y1,y2]` satisfy the strict test
`x1 < y2 ∧ y1 < x2`; in particular intervals that merely touch at a boundary
(`x2 = y1`) are never reported as a match. -/
theorem c2_theorem (mz_x mz_y : ℚ) (lp : LibPairArg) (ppm : ℚ) :
    (check_tolerance mz_x mz_y lp ppm = 1 ↔
      ((shifted_bounds mz_x mz_y lp ppm).1.1 < (shifted_bounds mz_x mz_y lp ppm).2.2 ∧
       (shifted_bounds mz_x mz_y lp ppm).2.1 < (shifted_bounds mz_x mz_y lp ppm).1.2))
    ∧ ((shifted_bounds mz_x mz_y lp ppm).1.2 = (shifted_bounds mz_x mz_y lp ppm).2.1 →
       check_tolerance mz_x mz_y lp ppm = 0) := by
  cases lp with
  | massDiff e =>
    constructor
    · simp only [check_tolerance, shifted_bounds]
      split <;> simp_all
    · intro htouch
      simp only [check_tolerance, shifted_bounds] at *
      split
      · rename_i hc
        exact absurd (htouch ▸ hc.2) (lt_irrefl _)
      · rfl
  | massCharge p =>
    constructor
    · simp only [check_tolerance, shifted_bounds]
      split <;> simp_all
    · intro htouch
      simp only [check_tolerance, shifted_bounds] at *
      split
      · rename_i hc
        exact absurd (htouch ▸ hc.2) (lt_irrefl _)
      · rfl

/-- Claim C2, witness: two windows that touch exactly at one boundary
(`ppm = 0`, masses 100 and 110, mass difference 10) are not reported as a
match. -/
theorem c2_witness :
    check_tolerance 100 110 (LibPairArg.massDiff ⟨"X", 1, "Y", 1, 10⟩) 0 = 0 :=
  (c2_theorem 100 110 _ 0).2 (by norm_num [shifted_bounds, calculate_mz_tolerance])

/-! ### Theorems for claims C4, C5 and C6 -/

/-- Claim C4: the range lookups of the Reference Range Store return exactly
the stored entries whose exact mass lies in the inclusive interval
`[min_tol, max_tol]`, with the rule filter additionally requiring all four
validity flags to equal 1; nothing in range is omitted. -/
theorem c4_theorem (mfs : List MfRecord) (cpds : List CpdRecord) (lo hi : ℚ)
    (rules : Bool) (r : MfRecord) (c : CpdRecord) :
    (r ∈ select_mf mfs lo hi rules ↔
      r ∈ mfs ∧ lo ≤ r.exact_mass ∧ r.exact_mass ≤ hi ∧
        (rules = true → r.lewis = some 1 ∧ r.senior = some 1 ∧
          r.HC = some 1 ∧ r.NOPSC = some 1))
    ∧ (c ∈ select_compounds cpds lo hi ↔
      c ∈ cpds ∧ lo ≤ c.exact_mass ∧ c.exact_mass ≤ hi) := by
  constructor
  · cases rules <;> simp [select_mf, List.mem_filter, and_assoc]
  · simp [select_compounds, List.mem_filter, and_assoc]

/-- Claim C5, code bug exhibited: with a zero intensity on peak a (so the
label-b product `x` is zero), `atoms` is `None`; the flat-list branch persists
it as NULL, but the graph branch wraps the insert value in `float(atoms)`,
which raises `TypeError` on `None` and aborts the run.  With both products
nonzero, `atoms` is the larger-abundance-side product over the
smaller-abundance-side product (here `0.9893 > 0.0107`, so
`(0.9893*30)/(0.0107*1000) = 29679/10700`). -/
theorem c5_code_bug :
    isotope_row_graph "M1" "M2" "C" "13C" (9893/10000) (107/10000) 0 30 0
        = Except.error "TypeError: float() argument is None"
    ∧ (isotope_row_flat "M1" "M2" "C" "13C" (9893/10000) (107/10000) 0 30 0).atoms = none
    ∧ atoms_calc (9893/10000) (107/10000) 1000 30 = some (29679 / 10700) := by
  norm_num [isotope_row_graph, isotope_row_flat, atoms_calc, float_of_atoms]

/-- Claim C6, counterexample: persisting a second Annotation Match with the
same composite key is NOT ignored: the plain `INSERT` of the source raises a
UNIQUE-constraint error and aborts, where the spec's insert-or-ignore
behaviour would have kept the first row and continued. -/
theorem c6_counterexample :
    persist_compounds [c6_row_1, c6_row_2]
        = Except.error "IntegrityError: UNIQUE constraint failed"
    ∧ persist_compounds_ignore_spec [c6_row_1, c6_row_2] = [c6_row_1]
    ∧ c6_row_1 ≠ c6_row_2 := by
  refine ⟨?_, ?_, ?_⟩ <;>
    norm_num [persist_compounds, persist_compounds_ignore_spec, sqlite_insert,
      cpd_key, c6_row_1, c6_row_2, List.foldlM, Except.instMonad, Except.bind,
      Except.pure, List.mem_cons, List.mem_singleton]

/-- Claim C6, amended: persisting a second Annotation Match with the same
composite key (`(id, compound_id, adduct)` for compounds, `(id, mz,
molecular_formula, adduct)` for molecular formulae) fails with a
UNIQUE-constraint error that aborts the annotation run; the first-written row
is never overwritten, and a row with a fresh key is appended. -/
theorem c6_amended_theorem (tc : List CpdMatchRow) (rc : CpdMatchRow)
    (tm : List MfMatchRow) (rm : MfMatchRow) :
    (sqlite_insert cpd_key tc rc = Except.ok (tc ++ [rc]) ↔
      ¬ ∃ x ∈ tc, cpd_key x = cpd_key rc)
    ∧ (sqlite_insert cpd_key tc rc
          = Except.error "IntegrityError: UNIQUE constraint failed" ↔
      ∃ x ∈ tc, cpd_key x = cpd_key rc)
    ∧ (sqlite_insert mf_key tm rm = Except.ok (tm ++ [rm]) ↔
      ¬ ∃ x ∈ tm, mf_key x = mf_key rm)
    ∧ (sqlite_insert mf_key tm rm
          = Except.error "IntegrityError: UNIQUE constraint failed" ↔
      ∃ x ∈ tm, mf_key x = mf_key rm) := by
  refine ⟨?_, ?_, ?_, ?_⟩ <;>
    · unfold sqlite_insert
      split <;> rename_i h <;> simp_all [List.any_eq_true]

/-! ### Theorems for claims C7 and C10 -/

/-- Claim C7, counterexample: with only an `artifacts` table present (plus the
just-written `peaklist`), the code raises "No annotation results available",
although the claim — whose relationship tables include `artifacts` — says the
summary must succeed. -/
theorem c7_counterexample :
    summary_raises ["peaklist", "artifacts"] = true
    ∧ summary_fails_claim ["peaklist", "artifacts"] = false := by
  constructor <;> rfl

set_option maxHeartbeats 1000000 in
/-- Claim C7, amended: `summary` fails with the descriptive error exactly when
none of `adduct_pairs`, `multiple_charged_ions`, `oligomers`, `isotopes`,
`molecular_formulae`, nor any table whose name contains "compound" exists;
`artifacts` and `drug_products` tables do not avert the failure. -/
theorem c7_amended_theorem (tables : List String) :
    summary_raises tables = true ↔
      ("adduct_pairs" ∉ tables ∧ "multiple_charged_ions" ∉ tables ∧
       "oligomers" ∉ tables ∧ "isotopes" ∉ tables ∧
       "molecular_formulae" ∉ tables ∧
       ∀ t ∈ tables, contains_sub "compound" t = false) := by
  have hpl : ((columns_peak_labels tables).isEmpty = true) ↔
      (flag_amo tables = false ∧ flag_isotopes tables = false) := by
    unfold columns_peak_labels
    cases h1 : flag_amo tables <;> cases h2 : flag_isotopes tables <;>
      cases h3 : groupings_nonempty tables <;>
        simp [h1, h2, h3, columns_groupings, columns_amo, columns_isotopes]
  have hmf : ((mf_cpc_columns tables).isEmpty = true) ↔
      (flag_mf tables = false ∧ (cpd_tables tables).isEmpty = true) := by
    unfold mf_cpc_columns
    cases h1 : flag_mf tables <;> cases h2 : (cpd_tables tables).isEmpty <;>
      simp [h1, h2]
  have hsr : summary_raises tables = true ↔
      ((columns_peak_labels tables).isEmpty = true ∧
       (mf_cpc_columns tables).isEmpty = true) := by
    simp [summary_raises]
  have hamo_iff : flag_amo tables = false ↔
      ("adduct_pairs" ∉ tables ∧ "multiple_charged_ions" ∉ tables ∧
       "oligomers" ∉ tables ∧ "isotopes" ∉ tables) := by
    simp [flag_amo, tables_amo]
  have hiso_iff : flag_isotopes tables = false ↔ "isotopes" ∉ tables := by
    simp [flag_isotopes]
  have hmf_iff : flag_mf tables = false ↔ "molecular_formulae" ∉ tables := by
    simp [flag_mf]
  have hcpd_iff : ((cpd_tables tables).isEmpty = true) ↔
      ∀ t ∈ tables, contains_sub "compound" t = false := by
    simp [cpd_tables, List.isEmpty_iff, List.filter_eq_nil_iff]
  rw [hsr, hpl, hmf, hamo_iff, hiso_iff, hmf_iff, hcpd_iff]
  tauto

/-- Claim C10: the peak-relationship views of `summary` (the label/charge/
oligomer union, the symmetrized isotope view, and the sub-group edge union)
are determined by the `adduct_pairs`, `multiple_charged_ions`, `oligomers`
and `isotopes` tables alone — the content of a persisted `artifacts` table
never contributes. -/
theorem c10_theorem (db1 db2 : AnnotationDb)
    (h1 : db1.adduct_pairs = db2.adduct_pairs)
    (h2 : db1.multiple_charged_ions = db2.multiple_charged_ions)
    (h3 : db1.oligomers = db2.oligomers)
    (h4 : db1.isotopes = db2.isotopes) :
    query_amo db1 = query_amo db2
    ∧ isotope_sym_rows db1 = isotope_sym_rows db2
    ∧ union_edges db1 = union_edges db2 := by
  refine ⟨?_, ?_, ?_⟩ <;>
    simp only [query_amo, isotope_sym_rows, union_edges, h1, h2, h3, h4]

/-- Claim C10, witness: adding an artifacts row to a concrete store leaves all
three relationship views of the summary unchanged. -/
theorem c10_witness :
    query_amo c10_db_artifacts = query_amo c10_db_base
    ∧ isotope_sym_rows c10_db_artifacts = isotope_sym_rows c10_db_base
    ∧ union_edges c10_db_artifacts = union_edges c10_db_base :=
  c10_theorem c10_db_artifacts c10_db_base rfl rfl rfl rfl

/-! ### Oligomer loop lemmas (claims C3 and C8) -/

/-- Congruence of `flatMap` under pointwise equality of the loop bodies. -/
theorem flatMap_congr_fn {α β : Type} (l : List α) (f g : α → List β)
    (h : ∀ a ∈ l, f a = g a) : l.flatMap f = l.flatMap g := by
  induction l with
  | nil => rfl
  | cons x xs ih =>
    simp only [List.flatMap_cons]
    rw [h x (List.mem_cons_self x xs), ih (fun a ha => h a (List.mem_cons_of_mem x ha))]

/-- A target that triggers the early break cannot pass the acceptance test. -/
theorem oligo_break_not_match (mz_x mz_y m ppm : ℚ) (d : ℕ)
    (hb : oligo_break mz_x mz_y m ppm d = true) :
    oligo_match mz_x mz_y m ppm d = false := by
  rw [Bool.eq_false_iff]
  intro hm
  simp only [oligo_break, oligo_match, calculate_mz_tolerance, Bool.and_eq_true,
    decide_eq_true_eq, gt_iff_lt] at hb hm
  linarith [hb.1, hm.2]

/-- Once the early break fires at target `mz_y`, no target with m/z at least
`mz_y` can pass the acceptance test, provided `ppm ≤ 10^6` (so the lower
tolerance bound is monotone in the mass). -/
theorem oligo_no_match_of_break_le (mz_x mz_y mz_y' m ppm : ℚ) (d : ℕ)
    (hppm : ppm ≤ 1000000)
    (hb : oligo_break mz_x mz_y m ppm d = true)
    (hle : mz_y ≤ mz_y') :
    oligo_match mz_x mz_y' m ppm d = false := by
  rw [Bool.eq_false_iff]
  intro hm
  simp only [oligo_break, oligo_match, calculate_mz_tolerance, Bool.and_eq_true,
    decide_eq_true_eq, gt_iff_lt] at hb hm
  have hc : (0 : ℚ) ≤ 1 - (1 / 1000000) * ppm := by linarith
  nlinarith [mul_le_mul_of_nonneg_right hle hc, hb.1, hm.2]

/-- On a target list with non-decreasing m/z values, the early-break scan of
`annotate_oligomers` emits exactly the rows of the exhaustive scan. -/
theorem j_scan_opt_eq_naive (mz_x m ppm : ℚ) (ai i d : ℕ) (js : List (ℕ × ℚ))
    (hppm : ppm ≤ 1000000)
    (hsorted : js.Pairwise (fun a b => a.2 ≤ b.2)) :
    j_scan_opt mz_x m ppm ai i d js = j_scan_naive mz_x m ppm ai i d js := by
  induction js with
  | nil => rfl
  | cons hd rest ih =>
    obtain ⟨j, mz_y⟩ := hd
    rw [List.pairwise_cons] at hsorted
    by_cases hb : oligo_break mz_x mz_y m ppm d = true
    · have hhead : oligo_match mz_x mz_y m ppm d = false :=
        oligo_break_not_match mz_x mz_y m ppm d hb
      have hrest : ∀ p ∈ rest,
          (fun jp : ℕ × ℚ => if oligo_match mz_x jp.2 m ppm d then
            some (mk_oligo_hit i jp.1 mz_x jp.2 m ai d) else none) p = none := by
        intro p hp
        have hle : mz_y ≤ p.2 := hsorted.1 p hp
        have hnm := oligo_no_match_of_break_le mz_x mz_y p.2 m ppm d hppm hb hle
        simp [hnm]
      simp [j_scan_opt, j_scan_naive, hb, List.filterMap_cons, hhead,
        List.filterMap_eq_nil_iff.mpr hrest]
    · rw [Bool.not_eq_true] at hb
      cases hm : oligo_match mz_x mz_y m ppm d <;>
        simp [j_scan_opt, j_scan_naive, hb, hm, List.filterMap_cons,
          ih hsorted.2]

/-- Claim C3, counterexample: on an UNSORTED peak list the early break changes
the accepted set.  With peaks `[100, 1000, 200]`, adduct mass 0, ppm 10 and
maximum 2, the break fires at the out-of-order peak 1000 and skips peak 200,
which the exhaustive scan accepts (the dimer of peak 100). -/
theorem c3_counterexample :
    annotate_oligomers_opt [100, 1000, 200] 10 [("M", 0)] 2
      ≠ annotate_oligomers_naive [100, 1000, 200] 10 [("M", 0)] 2 := by
  simp only [annotate_oligomers_opt, annotate_oligomers_naive, j_scan_opt, j_scan_naive,
    oligo_break, oligo_match, mk_oligo_hit, calculate_mz_tolerance, calculate_ppm_error,
    List.enum, List.enumFrom, List.drop, List.range', List.flatMap_cons, List.flatMap_nil,
    List.filterMap_cons, List.filterMap_nil]
  norm_num

/-- Claim C3, amended: for every peak list in non-decreasing m/z order (and
any sane ppm, at most 10^6), the flat-list oligomer matcher with its early
break produces exactly the same list of accepted
(peak_a, peak_b, adduct, multiplicity) rows as the exhaustive variant without
the break; on unordered peak lists the break can drop matches. -/
theorem c3_amended_theorem (mzs : List ℚ) (ppm : ℚ) (lib : List (String × ℚ))
    (maximum : ℕ) (hppm : ppm ≤ 1000000)
    (hsorted : mzs.Pairwise (· ≤ ·)) :
    annotate_oligomers_opt mzs ppm lib maximum
      = annotate_oligomers_naive mzs ppm lib maximum := by
  unfold annotate_oligomers_opt annotate_oligomers_naive
  apply flatMap_congr_fn
  intro ap _
  apply flatMap_congr_fn
  intro ip _
  apply flatMap_congr_fn
  intro d _
  apply j_scan_opt_eq_naive _ _ _ _ _ _ _ hppm
  have h1 : (mzs.drop (ip.1 + 1)).Pairwise (· ≤ ·) :=
    List.Pairwise.sublist (List.drop_sublist _ _) hsorted
  have h2 : List.Pairwise (· ≤ ·)
      (List.map Prod.snd (List.enumFrom (ip.1 + 1) (mzs.drop (ip.1 + 1)))) := by
    rwa [List.enumFrom_map_snd]
  exact List.pairwise_map.mp h2

/-- Claim C3, witness: a concrete sorted peak list on which the equivalence
theorem applies and the scans agree (and do accept a dimer). -/
theorem c3_witness :
    annotate_oligomers_opt [100, 199, 300] 10000 [("M", 1)] 3
      = annotate_oligomers_naive [100, 199, 300] 10000 [("M", 1)] 3 :=
  c3_amended_theorem [100, 199, 300] 10000 [("M", 1)] 3 (by norm_num)
    (by norm_num [List.pairwise_cons])

/-- Membership characterization of the exhaustive flat-list oligomer scan:
its accepted rows are exactly those satisfying `OligoHitSpec`. -/
theorem mem_oligo_naive_iff (mzs : List ℚ) (ppm : ℚ) (lib : List (String × ℚ))
    (maximum : ℕ) (h : OligoHit) :
    h ∈ annotate_oligomers_naive mzs ppm lib maximum ↔
      OligoHitSpec mzs ppm lib maximum h := by
  simp only [annotate_oligomers_naive, OligoHitSpec, j_scan_naive,
    List.mem_flatMap, List.mem_filterMap]
  constructor
  · rintro ⟨ap, hap, ip, hip, d, hd, jp, hjp, hsome⟩
    obtain ⟨ai, entry⟩ := ap
    obtain ⟨i, mzx⟩ := ip
    obtain ⟨j, mzy⟩ := jp
    rw [List.mk_mem_enum_iff_getElem?] at hap hip
    rw [List.mk_mem_enumFrom_iff_le_and_getElem?_sub] at hjp
    obtain ⟨hj1, hj2⟩ := hjp
    rw [List.mem_range'_1] at hd
    have hj3 : mzs[j]? = some mzy := by
      rw [List.getElem?_drop] at hj2
      have e : i + 1 + (j - (i + 1)) = j := by omega
      rwa [e] at hj2
    split at hsome
    · rename_i hmatch
      rw [Option.some.injEq] at hsome
      subst hsome
      refine ⟨entry, ?_, ?_, ?_, ?_, ?_, ?_, ?_, ?_⟩ <;>
        try simp only [mk_oligo_hit]
      all_goals
        first
          | exact hap
          | exact hip
          | exact hj3
          | exact hmatch
          | omega
    · exact absurd hsome (by simp)
  · rintro ⟨entry, hlib, hma, hmb, hij, hd1, hdm, hmatch, hmk⟩
    refine ⟨(h.adduct_idx, entry), ?_, (h.peak_id_a, h.mz_a), ?_, h.d, ?_,
      (h.peak_id_b, h.mz_b), ?_, ?_⟩
    · rw [List.mk_mem_enum_iff_getElem?]; exact hlib
    · rw [List.mk_mem_enum_iff_getElem?]; exact hma
    · rw [List.mem_range'_1]; omega
    · rw [List.mk_mem_enumFrom_iff_le_and_getElem?_sub]
      refine ⟨by omega, ?_⟩
      rw [List.getElem?_drop]
      have e : h.peak_id_a + 1 + (h.peak_id_b - (h.peak_id_a + 1)) = h.peak_id_b := by
        omega
      rw [e]
      exact hmb
    · rw [if_pos hmatch, ← hmk]

/-- Every row emitted by the early-break scan carries the multiplicity of the
loop iteration that produced it. -/
theorem j_scan_opt_d_eq (mz_x m ppm : ℚ) (ai i d : ℕ) (js : List (ℕ × ℚ))
    (h : OligoHit) (hm : h ∈ j_scan_opt mz_x m ppm ai i d js) : h.d = d := by
  induction js with
  | nil => simp [j_scan_opt] at hm
  | cons hd rest ih =>
    obtain ⟨j, mz_y⟩ := hd
    simp only [j_scan_opt] at hm
    split at hm
    · simp at hm
    · rw [List.mem_append] at hm
      rcases hm with hm | hm
      · split at hm
        · rw [List.mem_singleton] at hm
          subst hm
          simp [mk_oligo_hit]
        · simp at hm
      · exact ih hm

/-- Claim C8, counterexample: Python's `range(1, maximum)` EXCLUDES the
configured maximum.  With peaks `[100, 300]`, adduct mass 0, ppm 10 and
`maximum = 2`, the matcher tests only `d = 1` and emits nothing, while the
claim's inclusive reading also tests `d = 2` (the trimer `3 * 100 = 300`) and
accepts it. -/
theorem c8_counterexample :
    annotate_oligomers_opt [100, 300] 10 [("A", 0)] 2 = []
    ∧ annotate_oligomers_incl_spec [100, 300] 10 [("A", 0)] 2 ≠ [] := by
  constructor <;>
  · simp only [annotate_oligomers_opt, annotate_oligomers_incl_spec, j_scan_opt,
      j_scan_naive, oligo_break, oligo_match, mk_oligo_hit, calculate_mz_tolerance,
      calculate_ppm_error, List.enum, List.enumFrom, List.drop, List.range',
      List.flatMap_cons, List.flatMap_nil, List.filterMap_cons, List.filterMap_nil]
    norm_num

/-- Claim C8, amended: for every peak pair and adduct, the flat-list oligomer
matcher tests the multiplicities `d` from 1 up to but EXCLUDING the configured
maximum (Python's `range(1, maximum)`): the exhaustive scan accepts exactly
the rows satisfying the tolerance test for some `d` with `1 ≤ d < maximum`,
and even the early-break scan never emits a row with `d` outside that range. -/
theorem c8_amended_theorem (mzs : List ℚ) (ppm : ℚ) (lib : List (String × ℚ))
    (maximum : ℕ) (h : OligoHit) :
    (h ∈ annotate_oligomers_naive mzs ppm lib maximum ↔
      OligoHitSpec mzs ppm lib maximum h)
    ∧ (h ∈ annotate_oligomers_opt mzs ppm lib maximum →
        1 ≤ h.d ∧ h.d < maximum) := by
  refine ⟨mem_oligo_naive_iff mzs ppm lib maximum h, ?_⟩
  intro hmem
  simp only [annotate_oligomers_opt, List.mem_flatMap] at hmem
  obtain ⟨ap, _, ip, _, d, hd, hj⟩ := hmem
  have hde : h.d = d := j_scan_opt_d_eq ip.2 ap.2.2 ppm ap.1 ip.1 d _ h hj
  rw [List.mem_range'_1] at hd
  omega

/-- Claim C8, witness: on peaks `[100, 200]` with adduct mass 0, ppm 10 and
`maximum = 2`, the early-break scan emits the dimer row with `d = 1`, and the
amended theorem bounds its multiplicity. -/
theorem c8_witness :
    1 ≤ (mk_oligo_hit 0 1 100 200 0 0 1).d ∧ (mk_oligo_hit 0 1 100 200 0 0 1).d < 2 :=
  (c8_amended_theorem [100, 200] 10 [("M", 0)] 2 (mk_oligo_hit 0 1 100 200 0 0 1)).2
    (by
      simp only [annotate_oligomers_opt, j_scan_opt, oligo_break, oligo_match,
        calculate_mz_tolerance, List.enum, List.enumFrom, List.drop, List.range',
        List.flatMap_cons, List.flatMap_nil]
      norm_num)

/-- Claim C9: the intended artifact generator (see `annotate_artifacts_gen`;
the shipped `_annotate_artifacts` raises `TypeError` on every input because it
calls `range` on the m/z column itself) yields exactly the index pairs
`i < j` whose absolute m/z difference is STRICTLY below the threshold, one
row per flagged pair, using no ppm tolerance and no library in the test. -/
theorem c9_theorem (mzs : List ℚ) (diff : ℚ) (i j : ℕ) (md pe : ℚ) :
    (i, j, md, pe) ∈ annotate_artifacts_gen mzs diff ↔
      ∃ mzi mzj, mzs[i]? = some mzi ∧ mzs[j]? = some mzj ∧ i < j ∧
        |mzi - mzj| < diff ∧ md = mzi - mzj ∧ pe = calculate_ppm_error mzi mzj := by
  simp only [annotate_artifacts_gen, List.mem_flatMap, List.mem_filterMap]
  constructor
  · rintro ⟨ip, hip, jp, hjp, hsome⟩
    obtain ⟨i2, mzi⟩ := ip
    obtain ⟨j2, mzj⟩ := jp
    rw [List.mk_mem_enum_iff_getElem?] at hip
    rw [List.mk_mem_enumFrom_iff_le_and_getElem?_sub] at hjp
    obtain ⟨hj1, hj2⟩ := hjp
    have hj3 : mzs[j2]? = some mzj := by
      rw [List.getElem?_drop] at hj2
      have e : i2 + 1 + (j2 - (i2 + 1)) = j2 := by omega
      rwa [e] at hj2
    split at hsome
    · rename_i habs
      rw [Option.some.injEq] at hsome
      simp only [Prod.mk.injEq] at hsome
      obtain ⟨rfl, rfl, rfl, rfl⟩ := hsome
      exact ⟨mzi, mzj, hip, hj3, by omega, habs, rfl, rfl⟩
    · exact absurd hsome (by simp)
  · rintro ⟨mzi, mzj, hi, hj, hij, habs, rfl, rfl⟩
    refine ⟨(i, mzi), ?_, (j, mzj), ?_, ?_⟩
    · rw [List.mk_mem_enum_iff_getElem?]; exact hi
    · rw [List.mk_mem_enumFrom_iff_le_and_getElem?_sub]
      refine ⟨by omega, ?_⟩
      rw [List.getElem?_drop]
      have e : i + 1 + (j - (i + 1)) = j := by omega
      rw [e]; exact hj
    · rw [if_pos habs]

end Beamspy
